import Mathlib

/-!
# Verification of the BIGIP task / transaction core (`bigrest/bigip.py`)

A shallow embedding of the `BIGIP` class of BIGREST: the asynchronous task
lifecycle (`task_start`, `task_wait`, `task_completed`, `task_result`),
the object-existence probe (`exist`), and the transaction coordination
protocol (`transaction_create`, `transaction_validate`, `transaction_commit`,
and the `__enter__` / `__exit__` scoped pattern).

HTTP transport, URL building, authentication-token refresh and error-object
construction are external collaborators of this core; they are modelled as
explicit response arguments, an identity path resolver, omitted no-op guard
calls, and an error sum type respectively.  Every request the code would send
is recorded in a trace, each request carrying the value the session's
`X-F5-REST-Coordination-Id` header has at the moment it is sent.
-/

/-- A JSON value as used by this core: the code only ever reads and writes
string- and boolean-valued fields. -/
inductive JValue
  | str (s : String)
  | bool (b : Bool)
deriving DecidableEq

/-- A JSON object: an association list of fields (Python dict, keys unique,
first match wins on lookup). -/
abbrev JObject := List (String × JValue)

/-- Python `d[k]` / `k in d` support: first binding of `k`, if any. -/
def jlookup (o : JObject) (k : String) : Option JValue :=
  match o with
  | [] => none
  | (k2, v) :: rest => if k2 = k then some v else jlookup rest k

/-- Python string interpolation of a JSON value, as an f-string would render
it (`f"{x}"`): strings verbatim, booleans as `True` / `False`. -/
def JValue.text : JValue → String
  | .str s => s
  | .bool b => if b then "True" else "False"

/-- An HTTP response as the requests library presents it to this core:
status code, parsed JSON body, and the raw body text. -/
structure Response where
  status : Nat
  body : JObject
  text : String
deriving DecidableEq

/-- HTTP methods used by this core. -/
inductive Method
  | get
  | post
  | put
  | patch
deriving DecidableEq

/-- One HTTP request as issued through the session.  `coordId` records the
value of the session's `X-F5-REST-Coordination-Id` header at send time
(`none` when the header is absent). -/
structure Request where
  method : Method
  url : String
  payload : Option JObject
  coordId : Option String
deriving DecidableEq

/-- An observable event of the polling loop: an HTTP request, or a
`time.sleep` of the given number of seconds. -/
inductive Event
  | req (r : Request)
  | sleep (seconds : Nat)
deriving DecidableEq

/-- The exceptions this core can raise.  `restAPIError` embeds
`RESTAPIError(response, debug)`; `keyError` a Python `KeyError` from an
unguarded dict lookup or `headers.pop`; `attrError` an `AttributeError`
from reading a never-assigned attribute. -/
inductive PyError
  | restAPIError (r : Response)
  | keyError (k : String)
  | attrError (a : String)
deriving DecidableEq

/-- Modelled from the spec: `RESTObject` (generic response wrapper, defined
outside this core in `common/restobject.py`) carries the parsed JSON body of
the response it was built from. -/
structure RESTObject where
  properties : JObject
deriving DecidableEq

/-- The session state this core mutates: the coordination header
(`X-F5-REST-Coordination-Id`, `none` when unset) and the `_transaction`
attribute (`none` until `transaction_create` first assigns it). -/
structure Session where
  coordHeader : Option String
  transaction : Option JValue
deriving DecidableEq

/-- Modelled from the spec: the URL builder `_get_url` (an external
collaborator, §6 of the spec) resolves a path against the device base
address.  The claims depend only on the path suffixes built inside this
core, so resolution is the identity on paths. -/
def resolve (path : String) : String := path

/-- The `kind` value that selects the POLICY_IMPORT schema. -/
def policyImportKind : String := "tm:asm:tasks:import-policy:import-policy-taskstate"

/-- Which field carries the task id, per schema (`id` for POLICY_IMPORT,
`_taskId` otherwise), mirroring the two branches of `task_start`. -/
def idKey (k : JValue) : String :=
  if k = JValue.str policyImportKind then "id" else "_taskId"

/-- Which field carries the task state, per schema (`state` for
POLICY_IMPORT, `_taskState` otherwise), mirroring the two identical branches
of `task_wait` and `task_completed`. -/
def stateKey (k : JValue) : String :=
  if k = JValue.str policyImportKind then "state" else "_taskState"

/-- The state a 200-status task response carries, after schema dispatch on
its `kind` field: `none` when the required field is missing. -/
def pollStateOf (b : JObject) : Option JValue :=
  match jlookup b "kind" with
  | none => none
  | some k => jlookup b (stateKey k)

/-- Character-list prefix test (auxiliary to `strContains`). -/
def charsHavePrefix : List Char → List Char → Bool
  | [], _ => true
  | _ :: _, [] => false
  | a :: as, b :: bs => a == b && charsHavePrefix as bs

/-- Character-list substring test (auxiliary to `strContains`). -/
def charsContain (needle : List Char) : List Char → Bool
  | [] => needle.isEmpty
  | b :: bs => charsHavePrefix needle (b :: bs) || charsContain needle bs

/-- Python's substring test `needle in hay` on strings. -/
def strContains (hay needle : String) : Bool :=
  charsContain needle.toList hay.toList

/-- The tail of `task_start` after schema detection (source lines 73-81):
append the id to the URL, issue the best-effort finalize PUT only when the
prepared payload is non-empty (Python's `if data:` truthiness test), then
always issue the GET, which alone decides success (200/202) or
`RESTAPIError`.  The PUT response is only printed by the source, never
checked, so it does not influence the outcome. -/
def task_start_finish (s : Session) (url : String) (idv : JValue) (data : JObject)
    (rGet : Response) (reqPost : Request) : List Request × Except PyError RESTObject :=
  let url2 := url ++ "/" ++ idv.text
  let putTrace : List Request :=
    if data.isEmpty then []
    else [{ method := .put, url := url2, payload := some data, coordId := s.coordHeader }]
  let reqGet : Request := { method := .get, url := url2, payload := none, coordId := s.coordHeader }
  let out : Except PyError RESTObject :=
    if rGet.status ∉ ([200, 202] : List Nat) then .error (.restAPIError rGet)
    else .ok { properties := rGet.body }
  (reqPost :: putTrace ++ [reqGet], out)

/-- Embeds `BIGIP.task_start` (source lines 47-81).  `rPost`, `rPut`, `rGet`
are the responses the device returns to the POST, the optional finalize PUT
and the final GET; the authentication-guard call is an external no-op
collaborator and is not modelled.  Unguarded dict lookups raise `KeyError`
exactly where the source indexes `response.json()`. -/
def task_start (s : Session) (path : String) (data : JObject)
    (rPost _rPut rGet : Response) : List Request × Except PyError RESTObject :=
  let url := resolve path
  let reqPost : Request := { method := .post, url := url, payload := some data, coordId := s.coordHeader }
  if rPost.status ∉ ([200, 201] : List Nat) then
    ([reqPost], .error (.restAPIError rPost))
  else
    match jlookup rPost.body "kind" with
    | none => ([reqPost], .error (.keyError "kind"))
    | some k =>
      let data2 : JObject :=
        if k = JValue.str policyImportKind then []
        else [("_taskState", JValue.str "VALIDATING")]
      match jlookup rPost.body (idKey k) with
      | none => ([reqPost], .error (.keyError (idKey k)))
      | some idv => task_start_finish s url idv data2 rGet reqPost

/-- Outcome of the polling loop on a finite list of supplied responses. -/
inductive WaitOutcome
  | ok (obj : RESTObject)
  | err (e : PyError)
  | exhausted
deriving DecidableEq

/-- Embeds `BIGIP.task_wait` (source lines 83-119) over the finite list of
responses the device returns to the successive GETs; `exhausted` marks that
the loop would keep polling past the supplied list (the source loop is
unbounded).  Faithful to the source control flow: the 500 + "AsyncContext
timeout" branch prints and sleeps but does NOT restart the loop, so control
falls through to the generic non-200 check. -/
def task_wait (s : Session) (url : String) (interval : Nat) :
    List Response → List Event × WaitOutcome
  | [] => ([], .exhausted)
  | r :: rest =>
    let reqE : Event := .req { method := .get, url := url, payload := none, coordId := s.coordHeader }
    let sleepTrace : List Event :=
      if r.status == 500 && strContains r.text "AsyncContext timeout"
      then [Event.sleep interval] else []
    if r.status ≠ 200 then
      (reqE :: sleepTrace, .err (.restAPIError r))
    else
      match jlookup r.body "kind" with
      | none => (reqE :: sleepTrace, .err (.keyError "kind"))
      | some k =>
        match jlookup r.body (stateKey k) with
        | none => (reqE :: sleepTrace, .err (.keyError (stateKey k)))
        | some st =>
          if st = JValue.str "FAILURE" then
            (reqE :: sleepTrace, .err (.restAPIError r))
          else if st = JValue.str "COMPLETED" then
            (reqE :: sleepTrace, .ok { properties := r.body })
          else
            let next := task_wait s url interval rest
            (reqE :: sleepTrace ++ Event.sleep interval :: next.1, next.2)

/-- Embeds `BIGIP.task_completed` (source lines 121-150): one GET, then the
same status check and schema dispatch as the poll loop; `FAILURE` raises,
`COMPLETED` returns `true`, anything else returns `false`. -/
def task_completed (s : Session) (url : String) (r : Response) :
    List Request × Except PyError Bool :=
  let req : Request := { method := .get, url := url, payload := none, coordId := s.coordHeader }
  let out : Except PyError Bool :=
    if r.status ≠ 200 then .error (.restAPIError r)
    else
      match jlookup r.body "kind" with
      | none => .error (.keyError "kind")
      | some k =>
        match jlookup r.body (stateKey k) with
        | none => .error (.keyError (stateKey k))
        | some st =>
          if st = JValue.str "FAILURE" then .error (.restAPIError r)
          else if st = JValue.str "COMPLETED" then .ok true
          else .ok false
  ([req], out)

/-- Embeds `BIGIP.task_result` (source lines 152-176): GET on
`<task url>/result`; non-200 raises; the `commandResult` field is returned
when present (guarded by a membership test, so no `KeyError`), the empty
string otherwise. -/
def task_result (s : Session) (url : String) (r : Response) :
    List Request × Except PyError JValue :=
  let url2 := url ++ "/result"
  let req : Request := { method := .get, url := url2, payload := none, coordId := s.coordHeader }
  let out : Except PyError JValue :=
    if r.status ≠ 200 then .error (.restAPIError r)
    else
      match jlookup r.body "commandResult" with
      | some v => .ok v
      | none => .ok (JValue.str "")
  ([req], out)

/-- Embeds `BIGIP.exist` (source lines 178-199): 200 yields `true`, 404
yields `false`, everything else raises `RESTAPIError`. -/
def exist (s : Session) (url : String) (r : Response) :
    List Request × Except PyError Bool :=
  let req : Request := { method := .get, url := url, payload := none, coordId := s.coordHeader }
  let out : Except PyError Bool :=
    if r.status = 200 then .ok true
    else if r.status = 404 then .ok false
    else .error (.restAPIError r)
  ([req], out)

/-- Embeds `BIGIP.transaction_create` (source lines 201-220): POST `{}` to
the transaction collection; non-200 raises; on success the `transId` field
(a `KeyError` if absent) is stored as `_transaction` and the coordination
header is set to its interpolated text. -/
def transaction_create (s : Session) (r : Response) :
    Session × List Request × Except PyError RESTObject :=
  let url := resolve "/mgmt/tm/transaction"
  let req : Request := { method := .post, url := url, payload := some [], coordId := s.coordHeader }
  if r.status ≠ 200 then (s, [req], .error (.restAPIError r))
  else
    match jlookup r.body "transId" with
    | none => (s, [req], .error (.keyError "transId"))
    | some tid =>
      ({ s with transaction := some tid, coordHeader := some tid.text },
       [req], .ok { properties := r.body })

/-- Embeds `BIGIP.transaction_commit` (source lines 231-250): the URL is
built from `_transaction` (an `AttributeError` if never assigned), then
`headers.pop` removes the coordination header (a `KeyError` if absent), then
the PATCH `{"state": "VALIDATING"}` is sent WITHOUT the header; non-200
raises; the header is never restored. -/
def transaction_commit (s : Session) (r : Response) :
    Session × List Request × Except PyError RESTObject :=
  match s.transaction with
  | none => (s, [], .error (.attrError "_transaction"))
  | some tid =>
    let url := resolve ("/mgmt/tm/transaction/" ++ tid.text)
    match s.coordHeader with
    | none => (s, [], .error (.keyError "X-F5-REST-Coordination-Id"))
    | some _ =>
      let s1 : Session := { s with coordHeader := none }
      let req : Request :=
        { method := .patch, url := url,
          payload := some [("state", JValue.str "VALIDATING")], coordId := s1.coordHeader }
      if r.status ≠ 200 then (s1, [req], .error (.restAPIError r))
      else (s1, [req], .ok { properties := r.body })

/-- Embeds `BIGIP.transaction_validate` (source lines 261-284): like
`transaction_commit` but the PATCH payload is
`{"validateOnly": true, "state": "VALIDATING"}` and on success (and only
then) the coordination header is restored to the transaction id. -/
def transaction_validate (s : Session) (r : Response) :
    Session × List Request × Except PyError RESTObject :=
  match s.transaction with
  | none => (s, [], .error (.attrError "_transaction"))
  | some tid =>
    let url := resolve ("/mgmt/tm/transaction/" ++ tid.text)
    match s.coordHeader with
    | none => (s, [], .error (.keyError "X-F5-REST-Coordination-Id"))
    | some _ =>
      let s1 : Session := { s with coordHeader := none }
      let req : Request :=
        { method := .patch, url := url,
          payload := some [("validateOnly", JValue.bool true), ("state", JValue.str "VALIDATING")],
          coordId := s1.coordHeader }
      if r.status ≠ 200 then (s1, [req], .error (.restAPIError r))
      else ({ s1 with coordHeader := some tid.text }, [req], .ok { properties := r.body })

/-- Embeds `BIGIP.__enter__` (source lines 222-229): simply calls
`transaction_create`. -/
def enterScope (s : Session) (r : Response) :
    Session × List Request × Except PyError RESTObject :=
  transaction_create s r

/-- Embeds `BIGIP.__exit__` (source lines 252-259): receives the exception
triple from the runtime (`none` on a normal exit, `some e` when the body
raised `e`), ignores it entirely, and unconditionally calls
`transaction_commit`. -/
def exitScope (s : Session) (_exc : Option PyError) (r : Response) :
    Session × List Request × Except PyError RESTObject :=
  transaction_commit s r

/-- Modelled from the spec: Python's with-statement semantics for this
context manager (the scoped-acquisition pattern of §4.2/§9).  Per the
language, `__enter__` runs first; if it raises, the body and `__exit__` are
skipped.  Otherwise the body runs on its result, and `__exit__` is invoked
on BOTH normal and exceptional exits, receiving the exception triple; since
this `__exit__` returns `None` (falsy), a body exception propagates after
`__exit__` completes, and an exception raised by `__exit__` itself
replaces it. -/
def withStmt (s : Session) (rCreate rCommit : Response)
    (body : RESTObject → Except PyError Unit) :
    Session × List Request × Except PyError Unit :=
  match enterScope s rCreate with
  | (s1, tr1, .error e) => (s1, tr1, .error e)
  | (s1, tr1, .ok obj) =>
    match body obj with
    | .ok _ =>
      match exitScope s1 none rCommit with
      | (s2, tr2, .ok _) => (s2, tr1 ++ tr2, .ok ())
      | (s2, tr2, .error e2) => (s2, tr1 ++ tr2, .error e2)
    | .error e =>
      match exitScope s1 (some e) rCommit with
      | (s2, tr2, .ok _) => (s2, tr1 ++ tr2, .error e)
      | (s2, tr2, .error e2) => (s2, tr1 ++ tr2, .error e2)

/-- A task-creation (POST) response body is well formed when it carries a
`kind` field and the id field its schema requires (`id` for POLICY_IMPORT,
`_taskId` otherwise). -/
def wellFormedTaskCreate (b : JObject) : Bool :=
  match jlookup b "kind" with
  | none => false
  | some k => (jlookup b (idKey k)).isSome


/-- A fresh session: no coordination header, no transaction assigned yet. -/
def freshSession : Session := { coordHeader := none, transaction := none }

/-- A 200 response whose body is the empty JSON object. -/
def okEmpty : Response := { status := 200, body := [], text := "" }

/-- A 200 response creating transaction "42". -/
def okTrans : Response :=
  { status := 200, body := [("transId", JValue.str "42")], text := "" }

/-- A 200 creation response in the STANDARD schema. -/
def okStandardCreate : Response :=
  { status := 200, body := [("kind", JValue.str "tm:task"), ("_taskId", JValue.str "7")],
    text := "" }

/-- A 200 creation response in the POLICY_IMPORT schema. -/
def okPolicyCreate : Response :=
  { status := 200, body := [("kind", JValue.str policyImportKind), ("id", JValue.str "42")],
    text := "" }

/-- A 200 STANDARD-schema poll response reporting COMPLETED. -/
def okCompleted : Response :=
  { status := 200,
    body := [("kind", JValue.str "tm:task"), ("_taskState", JValue.str "COMPLETED")], text := "" }

/-- A 200 STANDARD-schema poll response reporting FAILURE. -/
def okFailure : Response :=
  { status := 200,
    body := [("kind", JValue.str "tm:task"), ("_taskState", JValue.str "FAILURE")], text := "" }

/-- A 200 STANDARD-schema poll response reporting IN_PROGRESS. -/
def okInProgress : Response :=
  { status := 200,
    body := [("kind", JValue.str "tm:task"), ("_taskState", JValue.str "IN_PROGRESS")], text := "" }

/-- A 200 response whose body lacks the `kind` field. -/
def okNoKind : Response :=
  { status := 200, body := [("_taskState", JValue.str "COMPLETED")], text := "" }

/-- C1: the claim says a poll iteration answered with status 500 and a body
text containing "AsyncContext timeout" is never surfaced to the caller: wait
sleeps and continues polling.  The code instead falls through to the generic
non-200 check after the sleep (there is no loop restart), so on the very
iteration that hit the transient condition it sleeps and then raises
`RESTAPIError` with that 500 response — even though the next response in the
sequence would have reported COMPLETED. -/
theorem asyncContext_timeout_sleeps_then_raises :
    task_wait { coordHeader := none, transaction := none } "/mgmt/tm/task/7" 10
        [{ status := 500, body := [], text := "Error: AsyncContext timeout" },
         { status := 200,
           body := [("kind", JValue.str "tm:task"), ("_taskState", JValue.str "COMPLETED")],
           text := "" }] =
      ([Event.req { method := Method.get, url := "/mgmt/tm/task/7", payload := none, coordId := none },
        Event.sleep 10],
       WaitOutcome.err (PyError.restAPIError
         { status := 500, body := [], text := "Error: AsyncContext timeout" })) := by
  rfl

/-- C2 counterexample: a concrete scoped run whose body raises.  The claim
says no release occurs on the error path, yet the request trace of the whole
with-statement ends with the commit PATCH on the created transaction, and
the body's exception still propagates afterwards: commit DID run on the
abnormal exit. -/
theorem scope_error_exit_still_commits_cex :
    (withStmt { coordHeader := none, transaction := none }
        { status := 200, body := [("transId", JValue.str "17")], text := "" }
        { status := 200, body := [], text := "" }
        (fun _ => Except.error (PyError.keyError "boom"))).2.1 =
      [{ method := Method.post, url := "/mgmt/tm/transaction", payload := some [], coordId := none },
       { method := Method.patch, url := "/mgmt/tm/transaction/17",
         payload := some [("state", JValue.str "VALIDATING")], coordId := none }] ∧
    (withStmt { coordHeader := none, transaction := none }
        { status := 200, body := [("transId", JValue.str "17")], text := "" }
        { status := 200, body := [], text := "" }
        (fun _ => Except.error (PyError.keyError "boom"))).2.2 =
      Except.error (PyError.keyError "boom") := by
  exact ⟨rfl, rfl⟩

/-- C2 (amended): entering the scope performs `transaction_create` and yields
its result, and whenever the transaction was created successfully the
with-statement's request trace is the creation trace followed by
`transaction_commit`'s trace for EVERY body — `__exit__` ignores the
exception triple, so the commit request is issued on normal and abnormal
exits alike. -/
theorem scope_enter_creates_exit_always_commits
    (s s1 : Session) (rC rK : Response) (body : RESTObject → Except PyError Unit)
    (tr1 : List Request) (obj : RESTObject)
    (h : enterScope s rC = (s1, tr1, Except.ok obj)) :
    enterScope s rC = transaction_create s rC ∧
    (withStmt s rC rK body).2.1 = tr1 ++ (transaction_commit s1 rK).2.1 := by
  refine ⟨rfl, ?_⟩
  unfold withStmt
  rw [h]
  rcases hE : transaction_commit s1 rK with ⟨s2, tr2, out⟩
  cases hb : body obj <;> cases out <;>
    simp [exitScope, hE, hb]

/-- C2 witness: the amended theorem applied to a concrete raising body. -/
theorem scope_enter_creates_exit_always_commits_witness :
    enterScope { coordHeader := none, transaction := none }
        { status := 200, body := [("transId", JValue.str "17")], text := "" } =
      transaction_create { coordHeader := none, transaction := none }
        { status := 200, body := [("transId", JValue.str "17")], text := "" } ∧
    (withStmt { coordHeader := none, transaction := none }
        { status := 200, body := [("transId", JValue.str "17")], text := "" }
        { status := 200, body := [], text := "" }
        (fun _ => Except.error (PyError.keyError "boom"))).2.1 =
      [{ method := Method.post, url := "/mgmt/tm/transaction", payload := some [], coordId := none }] ++
        (transaction_commit { coordHeader := some "17", transaction := some (JValue.str "17") }
          { status := 200, body := [], text := "" }).2.1 :=
  scope_enter_creates_exit_always_commits
    { coordHeader := none, transaction := none }
    { coordHeader := some "17", transaction := some (JValue.str "17") }
    { status := 200, body := [("transId", JValue.str "17")], text := "" }
    { status := 200, body := [], text := "" }
    (fun _ => Except.error (PyError.keyError "boom"))
    [{ method := Method.post, url := "/mgmt/tm/transaction", payload := some [], coordId := none }]
    { properties := [("transId", JValue.str "17")] }
    rfl

/-- C8: `exist` answers `true` exactly for status 200, `false` exactly for
status 404, and raises `RESTAPIError` carrying the response exactly for
every other status; it issues the single GET on the resolved path. -/
theorem exist_status_cases (s : Session) (url : String) (r : Response) :
    ((exist s url r).2 = Except.ok true ↔ r.status = 200) ∧
    ((exist s url r).2 = Except.ok false ↔ r.status = 404) ∧
    ((exist s url r).2 = Except.error (PyError.restAPIError r) ↔
      (r.status ≠ 200 ∧ r.status ≠ 404)) ∧
    (exist s url r).1 =
      [{ method := Method.get, url := url, payload := none, coordId := s.coordHeader }] := by
  by_cases h200 : r.status = 200
  · simp [exist, h200]
  · by_cases h404 : r.status = 404 <;> simp [exist, h200, h404]

/-- C9: `task_result` sends the GET to `<task url>/result`; a non-200 status
raises `RESTAPIError`; on status 200 it returns the value of the
`commandResult` field when present and the empty string when absent. -/
theorem task_result_commandResult (s : Session) (url : String) (r : Response) :
    (task_result s url r).1 =
      [{ method := Method.get, url := url ++ "/result", payload := none, coordId := s.coordHeader }] ∧
    (r.status ≠ 200 → (task_result s url r).2 = Except.error (PyError.restAPIError r)) ∧
    (r.status = 200 →
      (∀ v, jlookup r.body "commandResult" = some v → (task_result s url r).2 = Except.ok v) ∧
      (jlookup r.body "commandResult" = none →
        (task_result s url r).2 = Except.ok (JValue.str ""))) := by
  refine ⟨rfl, ?_, ?_⟩
  · intro h
    simp [task_result, h]
  · intro h
    refine ⟨?_, ?_⟩
    · intro v hv
      simp [task_result, h, hv]
    · intro hv
      simp [task_result, h, hv]

/-- C9 witness: concrete instances of both the present-field and the
absent-field cases, through the theorem. -/
theorem task_result_commandResult_witness :
    (task_result { coordHeader := none, transaction := none } "/t"
        { status := 200, body := [("commandResult", JValue.str "OK 5 items")], text := "" }).1 =
      [{ method := Method.get, url := "/t" ++ "/result", payload := none, coordId := none }] ∧
    ((200 : Nat) ≠ 200 →
      (task_result { coordHeader := none, transaction := none } "/t"
        { status := 200, body := [("commandResult", JValue.str "OK 5 items")], text := "" }).2 =
        Except.error (PyError.restAPIError
          { status := 200, body := [("commandResult", JValue.str "OK 5 items")], text := "" })) ∧
    ((200 : Nat) = 200 →
      (∀ v, jlookup [("commandResult", JValue.str "OK 5 items")] "commandResult" = some v →
        (task_result { coordHeader := none, transaction := none } "/t"
          { status := 200, body := [("commandResult", JValue.str "OK 5 items")], text := "" }).2 =
          Except.ok v) ∧
      (jlookup [("commandResult", JValue.str "OK 5 items")] "commandResult" = none →
        (task_result { coordHeader := none, transaction := none } "/t"
          { status := 200, body := [("commandResult", JValue.str "OK 5 items")], text := "" }).2 =
          Except.ok (JValue.str ""))) :=
  task_result_commandResult { coordHeader := none, transaction := none } "/t"
    { status := 200, body := [("commandResult", JValue.str "OK 5 items")], text := "" }

/-- C3: across create → validate → commit (all statuses 200, `transId`
present), the coordination header is present right after `create`, absent on
the PATCH request `validate` itself sends, present again right after the
successful `validate`, and absent after `commit` — whose own PATCH also goes
out without the header and which never restores it. -/
theorem transaction_header_lifecycle
    (s0 : Session) (rC rV rK : Response) (tid : JValue)
    (hCs : rC.status = 200) (hT : jlookup rC.body "transId" = some tid)
    (hVs : rV.status = 200) (hKs : rK.status = 200) :
    (transaction_create s0 rC).1.coordHeader = some tid.text ∧
    (∀ q ∈ (transaction_validate (transaction_create s0 rC).1 rV).2.1, q.coordId = none) ∧
    (transaction_validate (transaction_create s0 rC).1 rV).1.coordHeader = some tid.text ∧
    (transaction_commit (transaction_validate (transaction_create s0 rC).1 rV).1 rK).1.coordHeader =
      none ∧
    (∀ q ∈ (transaction_commit (transaction_validate (transaction_create s0 rC).1 rV).1 rK).2.1,
      q.coordId = none) := by
  simp [transaction_create, transaction_validate, transaction_commit, hCs, hT, hVs, hKs]

/-- C4: once the creation POST succeeded, the POLICY_IMPORT schema (detected
by `kind`) makes `start` issue exactly one POST and one GET — never a PUT —
with the id read from field `id`; every other `kind` makes it issue exactly
one POST, one PUT carrying `{"_taskState": "VALIDATING"}`, and one GET, in
that order, with the id read from `_taskId` — whatever the PUT and GET
responses are. -/
theorem task_start_request_sequence
    (s : Session) (path : String) (d : JObject) (rPost rPut rGet : Response)
    (hp : rPost.status ∈ ([200, 201] : List Nat)) :
    (∀ idv, jlookup rPost.body "kind" = some (JValue.str policyImportKind) →
      jlookup rPost.body "id" = some idv →
      (task_start s path d rPost rPut rGet).1 =
        [{ method := Method.post, url := resolve path, payload := some d, coordId := s.coordHeader },
         { method := Method.get, url := resolve path ++ "/" ++ idv.text, payload := none,
           coordId := s.coordHeader }]) ∧
    (∀ k idv, jlookup rPost.body "kind" = some k → k ≠ JValue.str policyImportKind →
      jlookup rPost.body "_taskId" = some idv →
      (task_start s path d rPost rPut rGet).1 =
        [{ method := Method.post, url := resolve path, payload := some d, coordId := s.coordHeader },
         { method := Method.put, url := resolve path ++ "/" ++ idv.text,
           payload := some [("_taskState", JValue.str "VALIDATING")], coordId := s.coordHeader },
         { method := Method.get, url := resolve path ++ "/" ++ idv.text, payload := none,
           coordId := s.coordHeader }]) := by
  rcases List.mem_pair.mp hp with h | h
  · constructor
    · intro idv hk hid
      simp [task_start, task_start_finish, idKey, h, hk, hid]
    · intro k idv hk hknp hid
      simp [task_start, task_start_finish, idKey, h, hk, hknp, hid]
  · constructor
    · intro idv hk hid
      simp [task_start, task_start_finish, idKey, h, hk, hid]
    · intro k idv hk hknp hid
      simp [task_start, task_start_finish, idKey, h, hk, hknp, hid]

/-- C5: with a well-formed creation body, `start` raises `RESTAPIError`
exactly when the POST status is outside {200, 201} or the final GET status
is outside {200, 202}; and the response to the finalize PUT has no influence
whatsoever on the run — the PUT is best-effort. -/
theorem task_start_raises_iff
    (s : Session) (path : String) (d : JObject) (rPost rPut rGet : Response)
    (hwf : wellFormedTaskCreate rPost.body = true) :
    ((∃ resp, (task_start s path d rPost rPut rGet).2 =
        Except.error (PyError.restAPIError resp)) ↔
      (rPost.status ∉ ([200, 201] : List Nat) ∨ rGet.status ∉ ([200, 202] : List Nat))) ∧
    (∀ rPut2, task_start s path d rPost rPut rGet = task_start s path d rPost rPut2 rGet) := by
  constructor
  · unfold wellFormedTaskCreate at hwf
    rcases hk : jlookup rPost.body "kind" with _ | k
    · simp [hk] at hwf
    · rw [hk] at hwf
      dsimp only at hwf
      rcases hid : jlookup rPost.body (idKey k) with _ | idv
      · simp [hid] at hwf
      · by_cases hp : rPost.status ∈ ([200, 201] : List Nat)
        · by_cases hg : rGet.status ∈ ([200, 202] : List Nat) <;>
            simp [task_start, task_start_finish, hk, hid, hp, hg]
        · simp [task_start, hp]
  · intro rPut2
    rfl

/-- C6: on any finite poll prefix of 200-status responses whose extracted
state is neither COMPLETED nor FAILURE, `wait` reaches the first response
whose extracted state is COMPLETED and returns the Task built from it
(whatever responses would follow), and it raises `RESTAPIError` at the first
response whose extracted state is FAILURE instead of looping on. -/
theorem task_wait_first_terminal
    (s : Session) (url : String) (interval : Nat)
    (pre : List Response) (r : Response) (rest : List Response)
    (hpre : ∀ p ∈ pre, p.status = 200 ∧ ∃ st, pollStateOf p.body = some st ∧
        st ≠ JValue.str "COMPLETED" ∧ st ≠ JValue.str "FAILURE")
    (hr : r.status = 200) :
    (pollStateOf r.body = some (JValue.str "COMPLETED") →
      (task_wait s url interval (pre ++ r :: rest)).2 =
        WaitOutcome.ok { properties := r.body }) ∧
    (pollStateOf r.body = some (JValue.str "FAILURE") →
      (task_wait s url interval (pre ++ r :: rest)).2 =
        WaitOutcome.err (PyError.restAPIError r)) := by
  induction pre with
  | nil =>
    constructor
    · intro h
      unfold pollStateOf at h
      rcases hk : jlookup r.body "kind" with _ | k
      · simp [hk] at h
      · rw [hk] at h
        dsimp only at h
        simp [task_wait, hr, hk, h]
    · intro h
      unfold pollStateOf at h
      rcases hk : jlookup r.body "kind" with _ | k
      · simp [hk] at h
      · rw [hk] at h
        dsimp only at h
        simp [task_wait, hr, hk, h]
  | cons p pre ih =>
    obtain ⟨hp200, st, hst, hstC, hstF⟩ := hpre p (List.mem_cons_self p pre)
    have hpre2 : ∀ q ∈ pre, q.status = 200 ∧ ∃ st2, pollStateOf q.body = some st2 ∧
        st2 ≠ JValue.str "COMPLETED" ∧ st2 ≠ JValue.str "FAILURE" :=
      fun q hq => hpre q (List.mem_cons_of_mem p hq)
    have ih2 := ih hpre2
    unfold pollStateOf at hst
    rcases hk : jlookup p.body "kind" with _ | kp
    · simp [hk] at hst
    · rw [hk] at hst
      dsimp only at hst
      constructor
      · intro h
        have step : (task_wait s url interval ((p :: pre) ++ r :: rest)).2 =
            (task_wait s url interval (pre ++ r :: rest)).2 := by
          simp [task_wait, hp200, hk, hst, hstC, hstF]
        rw [step]
        exact ih2.1 h
      · intro h
        have step : (task_wait s url interval ((p :: pre) ++ r :: rest)).2 =
            (task_wait s url interval (pre ++ r :: rest)).2 := by
          simp [task_wait, hp200, hk, hst, hstC, hstF]
        rw [step]
        exact ih2.2 h

/-- C7: `completed` issues the single GET; a non-200 status raises
`RESTAPIError`; on status 200 it returns `true` exactly when the extracted
state is COMPLETED, and a FAILURE state raises `RESTAPIError` — it is never
reported as a `false` return. -/
theorem task_completed_characterisation (s : Session) (url : String) (r : Response) :
    (task_completed s url r).1 =
      [{ method := Method.get, url := url, payload := none, coordId := s.coordHeader }] ∧
    (r.status ≠ 200 → (task_completed s url r).2 = Except.error (PyError.restAPIError r)) ∧
    (r.status = 200 → ∀ st, pollStateOf r.body = some st →
      (((task_completed s url r).2 = Except.ok true) ↔ st = JValue.str "COMPLETED") ∧
      (st = JValue.str "FAILURE" →
        (task_completed s url r).2 = Except.error (PyError.restAPIError r) ∧
        (task_completed s url r).2 ≠ Except.ok false)) := by
  refine ⟨rfl, ?_, ?_⟩
  · intro h
    simp [task_completed, h]
  · intro h st hst
    unfold pollStateOf at hst
    rcases hk : jlookup r.body "kind" with _ | k
    · simp [hk] at hst
    · rw [hk] at hst
      dsimp only at hst
      by_cases hF : st = JValue.str "FAILURE"
      · simp [task_completed, h, hk, hst, hF]
      · by_cases hC : st = JValue.str "COMPLETED" <;>
          simp [task_completed, h, hk, hst, hF, hC]

/-- C10: schema dispatch indexes the `kind` field without any guard: a
creation POST answered 200/201, or a 200-status poll / completion GET, whose
JSON body lacks `kind` makes `start`, `wait` and `completed` fail with a
`KeyError` — which is a different exception from `RESTAPIError`. -/
theorem kind_field_required
    (s : Session) (path url : String) (d : JObject) (interval : Nat)
    (r rPut rGet : Response) (rest : List Response)
    (hk : jlookup r.body "kind" = none) :
    (r.status = 200 ∨ r.status = 201 →
      (task_start s path d r rPut rGet).2 = Except.error (PyError.keyError "kind")) ∧
    (r.status = 200 →
      (task_wait s url interval (r :: rest)).2 = WaitOutcome.err (PyError.keyError "kind")) ∧
    (r.status = 200 →
      (task_completed s url r).2 = Except.error (PyError.keyError "kind")) ∧
    (∀ resp, PyError.keyError "kind" ≠ PyError.restAPIError resp) := by
  refine ⟨?_, ?_, ?_, ?_⟩
  · intro hp
    rcases hp with h | h <;> simp [task_start, h, hk]
  · intro h
    simp [task_wait, h, hk]
  · intro h
    simp [task_completed, h, hk]
  · intro resp hcon
    cases hcon

/-- C3 witness: the header lifecycle theorem at a concrete create → validate
→ commit run for transaction "42". -/
theorem transaction_header_lifecycle_witness :
    (transaction_create freshSession okTrans).1.coordHeader = some (JValue.str "42").text ∧
    (∀ q ∈ (transaction_validate (transaction_create freshSession okTrans).1 okEmpty).2.1,
      q.coordId = none) ∧
    (transaction_validate (transaction_create freshSession okTrans).1 okEmpty).1.coordHeader =
      some (JValue.str "42").text ∧
    (transaction_commit
      (transaction_validate (transaction_create freshSession okTrans).1 okEmpty).1
      okEmpty).1.coordHeader = none ∧
    (∀ q ∈ (transaction_commit
      (transaction_validate (transaction_create freshSession okTrans).1 okEmpty).1
      okEmpty).2.1, q.coordId = none) :=
  transaction_header_lifecycle freshSession okTrans okEmpty okEmpty (JValue.str "42")
    rfl rfl rfl rfl

/-- C4 witness: a concrete POLICY_IMPORT creation issues exactly the POST
and the GET, with the id taken from field `id`. -/
theorem task_start_request_sequence_witness :
    (task_start freshSession "/mgmt/tm/asm/tasks/import-policy" [] okPolicyCreate okEmpty
        okEmpty).1 =
      [{ method := Method.post, url := resolve "/mgmt/tm/asm/tasks/import-policy",
         payload := some [], coordId := freshSession.coordHeader },
       { method := Method.get,
         url := resolve "/mgmt/tm/asm/tasks/import-policy" ++ "/" ++ (JValue.str "42").text,
         payload := none, coordId := freshSession.coordHeader }] :=
  (task_start_request_sequence freshSession "/mgmt/tm/asm/tasks/import-policy" [] okPolicyCreate
    okEmpty okEmpty (by decide)).1 (JValue.str "42") rfl rfl

/-- C5 witness: the raise-characterisation theorem at a concrete well-formed
STANDARD creation. -/
theorem task_start_raises_iff_witness :
    ((∃ resp, (task_start freshSession "/tasks" [] okStandardCreate okEmpty okEmpty).2 =
        Except.error (PyError.restAPIError resp)) ↔
      (okStandardCreate.status ∉ ([200, 201] : List Nat) ∨
        okEmpty.status ∉ ([200, 202] : List Nat))) ∧
    (∀ rPut2, task_start freshSession "/tasks" [] okStandardCreate okEmpty okEmpty =
      task_start freshSession "/tasks" [] okStandardCreate rPut2 okEmpty) :=
  task_start_raises_iff freshSession "/tasks" [] okStandardCreate okEmpty okEmpty rfl

/-- C6 witness: after one IN_PROGRESS response, a COMPLETED response makes
`wait` return the completed Task (and would make it raise had the state been
FAILURE). -/
theorem task_wait_first_terminal_witness :
    (pollStateOf okCompleted.body = some (JValue.str "COMPLETED") →
      (task_wait freshSession "/t" 10 ([okInProgress] ++ okCompleted :: [])).2 =
        WaitOutcome.ok { properties := okCompleted.body }) ∧
    (pollStateOf okCompleted.body = some (JValue.str "FAILURE") →
      (task_wait freshSession "/t" 10 ([okInProgress] ++ okCompleted :: [])).2 =
        WaitOutcome.err (PyError.restAPIError okCompleted)) :=
  task_wait_first_terminal freshSession "/t" 10 [okInProgress] okCompleted []
    (by
      intro p hp
      rw [List.mem_singleton] at hp
      subst hp
      exact ⟨rfl, JValue.str "IN_PROGRESS", rfl, by decide, by decide⟩)
    rfl

/-- C7 witness: the characterisation theorem at a concrete FAILURE poll. -/
theorem task_completed_characterisation_witness :
    (task_completed freshSession "/t" okFailure).1 =
      [{ method := Method.get, url := "/t", payload := none,
         coordId := freshSession.coordHeader }] ∧
    (okFailure.status ≠ 200 →
      (task_completed freshSession "/t" okFailure).2 =
        Except.error (PyError.restAPIError okFailure)) ∧
    (okFailure.status = 200 → ∀ st, pollStateOf okFailure.body = some st →
      (((task_completed freshSession "/t" okFailure).2 = Except.ok true) ↔
        st = JValue.str "COMPLETED") ∧
      (st = JValue.str "FAILURE" →
        (task_completed freshSession "/t" okFailure).2 =
          Except.error (PyError.restAPIError okFailure) ∧
        (task_completed freshSession "/t" okFailure).2 ≠ Except.ok false)) :=
  task_completed_characterisation freshSession "/t" okFailure

/-- C8 witness: the status-case theorem at a concrete 200 response. -/
theorem exist_status_cases_witness :
    ((exist freshSession "/x" okEmpty).2 = Except.ok true ↔ okEmpty.status = 200) ∧
    ((exist freshSession "/x" okEmpty).2 = Except.ok false ↔ okEmpty.status = 404) ∧
    ((exist freshSession "/x" okEmpty).2 = Except.error (PyError.restAPIError okEmpty) ↔
      (okEmpty.status ≠ 200 ∧ okEmpty.status ≠ 404)) ∧
    (exist freshSession "/x" okEmpty).1 =
      [{ method := Method.get, url := "/x", payload := none,
         coordId := freshSession.coordHeader }] :=
  exist_status_cases freshSession "/x" okEmpty

/-- C10 witness: a 200 task response without `kind` drives all three
operations into the `KeyError`. -/
theorem kind_field_required_witness :
    (okNoKind.status = 200 ∨ okNoKind.status = 201 →
      (task_start freshSession "/p" [] okNoKind okEmpty okEmpty).2 =
        Except.error (PyError.keyError "kind")) ∧
    (okNoKind.status = 200 →
      (task_wait freshSession "/t" 10 (okNoKind :: [])).2 =
        WaitOutcome.err (PyError.keyError "kind")) ∧
    (okNoKind.status = 200 →
      (task_completed freshSession "/t" okNoKind).2 = Except.error (PyError.keyError "kind")) ∧
    (∀ resp, PyError.keyError "kind" ≠ PyError.restAPIError resp) :=
  kind_field_required freshSession "/p" "/t" [] 10 okNoKind okEmpty okEmpty [] rfl
